import Mathlib

/-!
Verification development for the Firebase email queue worker.

The definitions below are a shallow embedding of the canonical worker
snapshot: the queue claim and delivery state machine
(handleEmailDocument, markAsFailed, processEmailQueue), the ticket
attachment builder (buildTicketAttachments, sanitizeFileSegment), the
coordinate mapper (convertFrontendToPdfArea, normalizeTemplateArea) and
the text flow shrink loop of drawTicketInfoText.

Modelling conventions: JS numbers are rationals, server timestamps are
naturals handed in as an explicit parameter, Firestore documents are
records of optional fields, and external effects (SMTP send, per ticket
PDF rendering) are abstracted as boolean outcomes passed as parameters.
PDF bytes are abstracted: an attachment records the filename and the
seat label that was passed to generateTicketPdf.
-/

/-- Status enum of an email queue document. -/
inductive EmailStatus
  | pending
  | processing
  | sent
  | error
  | failed
  deriving DecidableEq, Repr

/-- Normalized rectangle as sent from the frontend, with optional font
metrics (interface QrArea). -/
structure QrArea where
  x : ℚ
  y : ℚ
  width : ℚ
  height : ℚ
  fontSize : Option ℚ
  lineSpacing : Option ℚ
  deriving DecidableEq, Repr

/-- Absolute page rectangle produced by the coordinate mapper
(interface PdfArea, y measured from the top of the page). -/
structure PdfArea where
  x : ℚ
  y : ℚ
  width : ℚ
  height : ℚ
  fontSize : Option ℚ
  lineSpacing : Option ℚ
  deriving DecidableEq, Repr

/-- One seat entry of a ticket context. -/
structure SeatEntry where
  id : Option String
  label : Option String
  number : Option String
  deriving DecidableEq, Repr

/-- The seatList field may be absent, a string, or an array; only a
real array contributes seats (Array.isArray check in the source). -/
inductive SeatListField
  | missing
  | stringValue (s : String)
  | arrayValue (seats : List SeatEntry)
  deriving DecidableEq, Repr

/-- Ticket rendering payload carried by a queued email (interface
TicketContext). -/
structure TicketContext where
  orderId : Option String
  ticketId : Option String
  ticketName : Option String
  customerName : Option String
  seatList : SeatListField
  eventDate : Option String
  quantity : Option Nat
  associationName : Option String
  ticketTemplatePdfUrl : Option String
  ticketTemplatePageWidth : Option ℚ
  ticketTemplatePageHeight : Option ℚ
  ticketTemplateQrArea : Option QrArea
  ticketTemplateInfoArea : Option QrArea
  ticketTemplateOrderIdArea : Option QrArea
  deriving DecidableEq, Repr

/-- An email queue document (interface EmailQueueDocument).  Absent
fields are none; updatedAt is written by every worker update.  toAddr
models the recipient field of the source, whose name is a reserved
word here. -/
structure EmailQueueDocument where
  associationId : Option String
  type : Option String
  toAddr : Option String
  subject : Option String
  body : Option String
  replyTo : Option String
  status : Option EmailStatus
  attempts : Option Nat
  context : Option TicketContext
  createdAt : Option Nat
  lockedAt : Option Nat
  sentAt : Option Nat
  lastError : Option String
  updatedAt : Option Nat
  deriving DecidableEq, Repr

/-- Retry ceiling (const MAX_ATTEMPTS = 5). -/
def MAX_ATTEMPTS : Nat := 5

/-- attempts field with the source's numeric defaulting
(data.attempts with a fallback of 0). -/
def attemptsN (d : EmailQueueDocument) : Nat := d.attempts.getD 0

/-- status field with the source's defaulting (data.status with a
fallback of pending). -/
def statusOf (d : EmailQueueDocument) : EmailStatus :=
  d.status.getD EmailStatus.pending

/-- The write performed inside the claim transaction: status becomes
processing, attempts is incremented by one, lockedAt is stamped,
lastError is deleted, updatedAt is stamped. -/
def claimUpdate (d : EmailQueueDocument) (now : Nat) : EmailQueueDocument :=
  { d with
    status := some EmailStatus.processing
    attempts := some (attemptsN d + 1)
    lockedAt := some now
    lastError := none
    updatedAt := some now }

/-- The claim transaction of handleEmailDocument: reads the snapshot;
a missing document or a status of sent or processing aborts with no
write (none); otherwise it returns the updated document together with
currentAttempts (the previous attempts value plus one). -/
def claimTx (snap : Option EmailQueueDocument) (now : Nat) :
    Option (EmailQueueDocument × Nat) :=
  match snap with
  | none => none
  | some d =>
    if statusOf d = EmailStatus.sent then none
    else if statusOf d = EmailStatus.processing then none
    else some (claimUpdate d now, attemptsN d + 1)

/-- markAsFailed: status becomes failed when attempts reached
MAX_ATTEMPTS and error otherwise; the message is recorded in lastError
and the lockedAt lock is deleted.  attempts is not touched. -/
def markAsFailed (d : EmailQueueDocument) (errorMessage : String)
    (attempts : Nat) (now : Nat) : EmailQueueDocument :=
  { d with
    status := some (if MAX_ATTEMPTS ≤ attempts then EmailStatus.failed
      else EmailStatus.error)
    lastError := some errorMessage
    lockedAt := none
    updatedAt := some now }

/-- The terminal write after a successful SMTP send: status sent,
sentAt stamped, lock and lastError deleted.  attempts is not touched. -/
def markAsSent (d : EmailQueueDocument) (now : Nat) : EmailQueueDocument :=
  { d with
    status := some EmailStatus.sent
    sentAt := some now
    lockedAt := none
    lastError := none
    updatedAt := some now }

/-- One full invocation of handleEmailDocument on the current document
state.  sendOk abstracts whether every post claim step (association
lookup, SMTP settings, field validation, SMTP send) succeeded; on any
failure the handler calls markAsFailed with currentAttempts.  When the
claim transaction aborts, the document is left untouched and no post
claim processing runs. -/
def handleEmailDocumentModel (snap : Option EmailQueueDocument) (now : Nat)
    (sendOk : Bool) (errorMessage : String) : Option EmailQueueDocument :=
  match claimTx snap now with
  | none => snap
  | some (d2, att) =>
    some (if sendOk then markAsSent d2 now else markAsFailed d2 errorMessage att now)

/-- The writes the worker can perform on one job document: a successful
claim transaction, or a terminal write by the lock holder (only ever
issued while the document is in processing, since the claim guard
admits at most one holder). -/
inductive JobStep : EmailQueueDocument → EmailQueueDocument → Prop
  | claim (d d2 : EmailQueueDocument) (now att : Nat) :
      claimTx (some d) now = some (d2, att) → JobStep d d2
  | sendSuccess (d : EmailQueueDocument) (now : Nat) :
      d.status = some EmailStatus.processing → JobStep d (markAsSent d now)
  | sendFailure (d : EmailQueueDocument) (errorMessage : String) (now : Nat) :
      d.status = some EmailStatus.processing →
      JobStep d (markAsFailed d errorMessage (attemptsN d) now)

/-- A freshly enqueued job: status pending (or still absent), no
attempts yet, no lock, no sentAt, no error. -/
def FreshJob (d : EmailQueueDocument) : Prop :=
  (d.status = none ∨ d.status = some EmailStatus.pending) ∧
    (d.attempts = none ∨ d.attempts = some 0) ∧
    d.sentAt = none ∧ d.lockedAt = none ∧ d.lastError = none

/-- Repeatedly drive one document through handleEmailDocument; each
list entry is the success outcome of one invocation's side effects. -/
def runQueue (snap : Option EmailQueueDocument) (results : List Bool) :
    Option EmailQueueDocument :=
  results.foldl
    (fun acc ok => handleEmailDocumentModel acc 0 ok ("SMTP send failed")) snap

/-- A concrete freshly enqueued job used in scenario computations. -/
def freshJob : EmailQueueDocument :=
  { associationId := some ("assoc1")
    type := some ("test")
    toAddr := some ("user@example.com")
    subject := some ("Hello")
    body := some ("Hi")
    replyTo := none
    status := some EmailStatus.pending
    attempts := some 0
    context := none
    createdAt := some 0
    lockedAt := none
    sentAt := none
    lastError := none
    updatedAt := none }

/-- Snapshot of a queue document as seen by the scheduler sweep's
collection group queries. -/
structure QueueDocSnapshot where
  status : Option EmailStatus
  createdAt : Option Nat
  deriving DecidableEq, Repr

/-- createdAt with the sweep's defaulting (toMillis with fallback 0). -/
def createdAtMillis (d : QueueDocSnapshot) : Nat := d.createdAt.getD 0

/-- Stable insertion into a list ordered by createdAt. -/
def insertByCreatedAt (d : QueueDocSnapshot) :
    List QueueDocSnapshot → List QueueDocSnapshot
  | [] => [d]
  | e :: rest =>
    if createdAtMillis d ≤ createdAtMillis e then d :: e :: rest
    else e :: insertByCreatedAt d rest

/-- Sort by ascending createdAt (orderBy createdAt asc, and the
sweep's merge sort of the two batches). -/
def sortByCreatedAt (l : List QueueDocSnapshot) : List QueueDocSnapshot :=
  l.foldr insertByCreatedAt []

/-- One collection group query of the sweep: equality filter on status,
ordered by createdAt ascending, limited to 10 documents. -/
def queryByStatus (db : List QueueDocSnapshot) (s : EmailStatus) :
    List QueueDocSnapshot :=
  (sortByCreatedAt (db.filter (fun d => decide (d.status = some s)))).take 10

/-- The documents the scheduled sweep (processEmailQueue) selects: the
pending batch and the error batch, merged, re-sorted by createdAt and
capped at 20. -/
def processEmailQueueSelection (db : List QueueDocSnapshot) :
    List QueueDocSnapshot :=
  (sortByCreatedAt
      (queryByStatus db EmailStatus.pending ++ queryByStatus db EmailStatus.error)).take 20

/-- Default QR rectangle (const DEFAULT_QR_AREA). -/
def DEFAULT_QR_AREA : QrArea :=
  { x := 65/100, y := 1/10, width := 1/4, height := 1/4
    fontSize := none, lineSpacing := none }

/-- convertFrontendToPdfArea of the canonical snapshot: direct scaling
of the normalized rectangle onto the page, y measured from the top, no
clamping; font metrics pass through unscaled; null in, null out.  The
template dimensions are accepted but unused by the mapping. -/
def convertFrontendToPdfArea (frontendArea : Option QrArea)
    (templateWidth templateHeight pdfWidth pdfHeight : ℚ) : Option PdfArea :=
  match frontendArea with
  | none => none
  | some a =>
    some
      { x := a.x * pdfWidth
        y := a.y * pdfHeight
        width := a.width * pdfWidth
        height := a.height * pdfHeight
        fontSize := a.fontSize
        lineSpacing := a.lineSpacing }

/-- The QR area resolution inside generateTicketPdf: a missing QR
rectangle falls back to DEFAULT_QR_AREA before mapping. -/
def generateTicketPdfQrArea (qrArea : Option QrArea)
    (templateWidth templateHeight pageWidth pageHeight : ℚ) : Option PdfArea :=
  convertFrontendToPdfArea (some (qrArea.getD DEFAULT_QR_AREA))
    templateWidth templateHeight pageWidth pageHeight

/-- clamp helper (Math.min of Math.max). -/
def clamp (value lo hi : ℚ) : ℚ := min (max value lo) hi

/-- normalizeTemplateArea of the superseded bottom-up snapshot: applies
the fallback, clamps position into the unit interval and size into
[0.02, 1], then scales to the page. -/
def normalizeTemplateArea (area : Option QrArea) (pageWidth pageHeight : ℚ)
    (fallback : Option QrArea) : Option QrArea :=
  match area.orElse (fun _ => fallback) with
  | none => none
  | some source =>
    some
      { x := clamp source.x 0 1 * pageWidth
        y := clamp source.y 0 1 * pageHeight
        width := clamp source.width (2/100) 1 * pageWidth
        height := clamp source.height (2/100) 1 * pageHeight
        fontSize := none
        lineSpacing := none }

/-- Needed text height as computed by drawTicketInfoText:
segments * fontSize + (segments - 1) * lineSpacing, where the number of
wrapped segments is a function of the current font size (the word wrap
at the area width).  seg abstracts wrapLine over the fixed line list,
font and usable width. -/
def neededHeight (seg : ℚ → ℤ) (fontSize lineSpacing : ℚ) : ℚ :=
  (seg fontSize : ℚ) * fontSize + ((seg fontSize : ℚ) - 1) * lineSpacing

/-- Scale factor of one shrink iteration:
max(0.75, availableHeight * 0.95 / neededHeight). -/
def scaleFactor (avail needed : ℚ) : ℚ := max (3/4) (avail * (95/100) / needed)

/-- New font size of one shrink iteration:
max(8, Math.floor(fontSize * scaleFactor)). -/
def nextFont (seg : ℚ → ℤ) (avail fontSize lineSpacing : ℚ) : ℚ :=
  max 8 ((Int.floor (fontSize * scaleFactor avail (neededHeight seg fontSize lineSpacing)) : ℤ) : ℚ)

/-- New line spacing of one shrink iteration:
max(2, Math.floor(lineSpacing * scaleFactor)). -/
def nextSpacing (seg : ℚ → ℤ) (avail fontSize lineSpacing : ℚ) : ℚ :=
  max 2 ((Int.floor (lineSpacing * scaleFactor avail (neededHeight seg fontSize lineSpacing)) : ℤ) : ℚ)

/-- The bounded shrink loop of drawTicketInfoText.  Returns the final
font size, line spacing and the number of loop bodies executed.  The
loop breaks when a rescale changes neither value, when the recomputed
needed height fits into 95 percent of the available height, or when
the fuel (10 iterations at the call site) is exhausted. -/
def shrinkLoop (seg : ℚ → ℤ) (avail : ℚ) :
    Nat → ℚ → ℚ → ℚ × ℚ × Nat
  | 0, fontSize, lineSpacing => (fontSize, lineSpacing, 0)
  | n + 1, fontSize, lineSpacing =>
    let fs2 := nextFont seg avail fontSize lineSpacing
    let ls2 := nextSpacing seg avail fontSize lineSpacing
    if fs2 = fontSize ∧ ls2 = lineSpacing then (fontSize, lineSpacing, 1)
    else if neededHeight seg fs2 ls2 ≤ avail * (95/100) then (fs2, ls2, 1)
    else
      let r := shrinkLoop seg avail n fs2 ls2
      (r.1, r.2.1, r.2.2 + 1)

/-- The font adjustment performed by drawTicketInfoText before drawing:
the shrink loop runs (with 10 iterations of fuel) only when the needed
height exceeds the full available height. -/
def adjustTicketText (seg : ℚ → ℤ) (avail fontSize lineSpacing : ℚ) :
    ℚ × ℚ × Nat :=
  if avail < neededHeight seg fontSize lineSpacing then
    shrinkLoop seg avail 10 fontSize lineSpacing
  else (fontSize, lineSpacing, 0)

/-- A wrap measure with a single text segment at every font size. -/
def constOneSeg : ℚ → ℤ := fun _ => 1

/-- A produced ticket attachment; the PDF bytes are abstracted to the
seat label that generateTicketPdf received for this unit. -/
structure TicketAttachment where
  filename : String
  seatLabel : Option String
  deriving DecidableEq, Repr

/-- JS truthiness of an optional string (undefined and the empty
string are falsy). -/
def jsTruthyStr (s : Option String) : Bool :=
  match s with
  | none => false
  | some v => !(v == (""))

/-- JS short circuit or over optional strings. -/
def jsOrStr (a b : Option String) : Option String :=
  if jsTruthyStr a then a else b

/-- Seat label resolution for one unit:
seat label, else seat number, else seat id, else null, each skipped
when falsy. -/
def seatLabelOf (seat : Option SeatEntry) : Option String :=
  match seat with
  | none => none
  | some s => jsOrStr s.label (jsOrStr s.number (jsOrStr s.id none))

/-- Characters the filename sanitizer keeps unchanged (the regex
character class of letters, digits, underscore and hyphen). -/
def allowedFileChar (c : Char) : Bool :=
  ((('a') ≤ c) && (c ≤ ('z'))) || ((('A') ≤ c) && (c ≤ ('Z'))) ||
    ((('0') ≤ c) && (c ≤ ('9'))) || (c == ('_')) || (c == ('-'))

/-- sanitizeFileSegment: every character outside the allowed class is
replaced by an underscore, then the result is truncated to 50
characters (String(str with fallback) replace substring). -/
def sanitizeFileSegment (str : Option String) : String :=
  String.mk
    (((str.getD ("")).toList.map
        (fun c => if allowedFileChar c then c else ('_'))).take 50)

/-- Modelled from the spec: the sanitizer as the claim words it, which
strips (removes) every character outside the allowed class and
truncates to 50 characters.  Used only to compare the claimed filename
against the one the source produces. -/
def sanitizeFileSegmentSpec (str : Option String) : String :=
  String.mk (((str.getD ("")).toList.filter (fun c => allowedFileChar c)).take 50)

/-- Seat array of a context: only a real array counts. -/
def seatArrayOf (ctx : TicketContext) : List SeatEntry :=
  match ctx.seatList with
  | SeatListField.arrayValue l => l
  | _ => []

/-- Ticket count of buildTicketAttachments: the JS truthiness chain
quantity, else seat array length, else 1. -/
def jsTicketCount (quantity : Option Nat) (seatLen : Nat) : Nat :=
  if quantity.getD 0 ≠ 0 then quantity.getD 0
  else if seatLen ≠ 0 then seatLen else 1

/-- Filename of one produced attachment. -/
def ticketFileName (ticketName : Option String) (seatLabel : Option String) :
    String :=
  ("Ticket_") ++ sanitizeFileSegment ticketName ++ ("_") ++
    sanitizeFileSegment seatLabel ++ (".pdf")

/-- buildTicketAttachments: early exit with an empty list unless the
job is a ticket job with a context carrying a truthy orderId and
ticketName; then one render unit per ticket count, each unit resolving
its seat label from the seat array entry at its index; renderOk
abstracts the per unit generateTicketPdf outcome, and a failed unit is
skipped while the batch continues.  Template and area resolution only
feed the abstracted PDF bytes and are omitted. -/
def buildTicketAttachments (renderOk : Nat → Bool)
    (emailData : EmailQueueDocument) : List TicketAttachment :=
  if emailData.type ≠ some ("ticket") then []
  else
    match emailData.context with
    | none => []
    | some ctx =>
      if ¬ (jsTruthyStr ctx.orderId ∧ jsTruthyStr ctx.ticketName) then []
      else
        let seatArray := seatArrayOf ctx
        let ticketCount := jsTicketCount ctx.quantity seatArray.length
        (List.range ticketCount).filterMap (fun i =>
          let seatLabel := seatLabelOf seatArray[i]?
          if renderOk i then
            some { filename := ticketFileName ctx.ticketName seatLabel
                   seatLabel := seatLabel }
          else none)

/-- A render oracle under which every unit succeeds. -/
def allOkRender : Nat → Bool := fun _ => true

/-- A ticket context with a quantity of 3 and no seat list. -/
def exampleCtxQ3 : TicketContext :=
  { orderId := some ("ORD-1")
    ticketId := none
    ticketName := some ("Sommerfest")
    customerName := none
    seatList := SeatListField.missing
    eventDate := none
    quantity := some 3
    associationName := some ("Verein")
    ticketTemplatePdfUrl := none
    ticketTemplatePageWidth := none
    ticketTemplatePageHeight := none
    ticketTemplateQrArea := none
    ticketTemplateInfoArea := none
    ticketTemplateOrderIdArea := none }

/-- A ticket job with quantity 3 and no seat list. -/
def exampleJobQ3 : EmailQueueDocument :=
  { freshJob with type := some ("ticket"), context := some exampleCtxQ3 }

/-- The same context with an explicitly present quantity of 0. -/
def exampleCtxQ0 : TicketContext := { exampleCtxQ3 with quantity := some 0 }

/-- A ticket job whose context carries quantity 0. -/
def exampleJobQ0 : EmailQueueDocument :=
  { freshJob with type := some ("ticket"), context := some exampleCtxQ0 }

/-- A ticket context whose ticket name contains characters outside the
allowed filename class. -/
def exampleCtxName : TicketContext :=
  { exampleCtxQ3 with ticketName := some ("Give Away 10%"), quantity := none }

/-- A ticket job used for the filename computation. -/
def exampleJobName : EmailQueueDocument :=
  { freshJob with type := some ("ticket"), context := some exampleCtxName }

/-- A concrete already sent job. -/
def sentJob : EmailQueueDocument :=
  { freshJob with
    status := some EmailStatus.sent
    sentAt := some 41
    attempts := some 1 }

/-- A concrete failed job with exhausted attempts. -/
def failedJob : EmailQueueDocument :=
  { freshJob with
    status := some EmailStatus.failed
    attempts := some 5
    lastError := some ("boom") }

theorem claimTx_none_iff (d : EmailQueueDocument) (now : Nat) :
    claimTx (some d) now = none ↔
      statusOf d = EmailStatus.sent ∨ statusOf d = EmailStatus.processing := by
  by_cases hs : statusOf d = EmailStatus.sent
  · simp [claimTx, hs]
  by_cases hp : statusOf d = EmailStatus.processing
  · simp [claimTx, hs, hp]
  · simp [claimTx, hs, hp]

theorem claimTx_some_eq (d : EmailQueueDocument) (now : Nat)
    (hs : statusOf d ≠ EmailStatus.sent)
    (hp : statusOf d ≠ EmailStatus.processing) :
    claimTx (some d) now = some (claimUpdate d now, attemptsN d + 1) := by
  simp [claimTx, hs, hp]

theorem claimTx_some_elim {d d2 : EmailQueueDocument} {now att : Nat}
    (h : claimTx (some d) now = some (d2, att)) :
    statusOf d ≠ EmailStatus.sent ∧ statusOf d ≠ EmailStatus.processing ∧
      d2 = claimUpdate d now ∧ att = attemptsN d + 1 := by
  by_cases hs : statusOf d = EmailStatus.sent
  · simp [claimTx, hs] at h
  by_cases hp : statusOf d = EmailStatus.processing
  · simp [claimTx, hs, hp] at h
  · rw [claimTx_some_eq d now hs hp] at h
    refine ⟨hs, hp, ?_, ?_⟩
    · exact (Prod.mk.injEq _ _ _ _ ▸ (Option.some.injEq _ _ ▸ h)).1.symm
    · exact (Prod.mk.injEq _ _ _ _ ▸ (Option.some.injEq _ _ ▸ h)).2.symm

/-- C1: the claim transaction of handleEmailDocument performs no write
and no post claim processing runs when the document is missing or its
status is sent or processing (in particular a sent job is never
mutated by a later claim attempt); for every other status it atomically
sets the status to processing, increments attempts by exactly one,
stamps lockedAt and clears lastError in the one transactional write,
which commits before any side effect is attempted. -/
theorem c1_claim_transaction_exactly_once (now : Nat) :
    (claimTx none now = none ∧
        ∀ ok e, handleEmailDocumentModel none now ok e = none) ∧
      (∀ d, statusOf d = EmailStatus.sent ∨ statusOf d = EmailStatus.processing →
        claimTx (some d) now = none ∧
          ∀ ok e, handleEmailDocumentModel (some d) now ok e = some d) ∧
      (∀ d, statusOf d ≠ EmailStatus.sent → statusOf d ≠ EmailStatus.processing →
        claimTx (some d) now = some (claimUpdate d now, attemptsN d + 1) ∧
          (claimUpdate d now).status = some EmailStatus.processing ∧
          (claimUpdate d now).attempts = some (attemptsN d + 1) ∧
          (claimUpdate d now).lockedAt = some now ∧
          (claimUpdate d now).lastError = none) := by
  refine ⟨⟨rfl, fun ok e => rfl⟩, ?_, ?_⟩
  · intro d h
    have hnone : claimTx (some d) now = none := (claimTx_none_iff d now).mpr h
    exact ⟨hnone, fun ok e => by simp [handleEmailDocumentModel, hnone]⟩
  · intro d hs hp
    exact ⟨claimTx_some_eq d now hs hp, rfl, rfl, rfl, rfl⟩

theorem c1_witness :
    claimTx (some sentJob) 7 = none ∧
      handleEmailDocumentModel (some sentJob) 7 true ("x") = some sentJob := by
  have h := (c1_claim_transaction_exactly_once 7).2.1 sentJob (Or.inl (by decide))
  exact ⟨h.1, h.2 true ("x")⟩

/-- C2: every failed attempt records the error message in lastError and
clears the lockedAt lock, with terminal status failed exactly when the
post claim attempts counter reached MAX_ATTEMPTS and error otherwise;
a job that fails on exactly its fifth attempt ends failed, and a job
that fails four times and succeeds on the fifth ends sent with
attempts five. -/
theorem c2_retry_ceiling :
    (∀ d e att now, (markAsFailed d e att now).status
          = some (if MAX_ATTEMPTS ≤ att then EmailStatus.failed else EmailStatus.error) ∧
        (markAsFailed d e att now).lastError = some e ∧
        (markAsFailed d e att now).lockedAt = none) ∧
      (∀ d now e, statusOf d ≠ EmailStatus.sent →
        statusOf d ≠ EmailStatus.processing →
        handleEmailDocumentModel (some d) now false e
          = some (markAsFailed (claimUpdate d now) e (attemptsN d + 1) now)) ∧
      runQueue (some freshJob) [false, false, false, false, false]
        = some { freshJob with
            status := some EmailStatus.failed
            attempts := some 5
            lastError := some ("SMTP send failed")
            updatedAt := some 0 } ∧
      runQueue (some freshJob) [false, false, false, false, true]
        = some { freshJob with
            status := some EmailStatus.sent
            attempts := some 5
            sentAt := some 0
            updatedAt := some 0 } := by
  refine ⟨fun d e att now => ⟨rfl, rfl, rfl⟩, ?_, by decide, by decide⟩
  intro d now e hs hp
  simp [handleEmailDocumentModel, claimTx_some_eq d now hs hp]

theorem c2_witness :
    handleEmailDocumentModel (some freshJob) 0 false ("boom")
      = some (markAsFailed (claimUpdate freshJob 0) ("boom") (attemptsN freshJob + 1) 0) :=
  (c2_retry_ceiling).2.1 freshJob 0 ("boom") (by decide) (by decide)

theorem jobStep_attempts_le {d d2 : EmailQueueDocument} (h : JobStep d d2) :
    attemptsN d ≤ attemptsN d2 := by
  cases h with
  | claim d2 now att hclaim =>
    obtain ⟨-, -, hd2, -⟩ := claimTx_some_elim hclaim
    subst hd2
    simp [attemptsN, claimUpdate]
  | sendSuccess now hst => simp [attemptsN, markAsSent]
  | sendFailure e now hst => simp [attemptsN, markAsFailed]

/-- C3: across every sequence of worker writes on one job document the
attempts counter never decreases and is never reset: the claim
transaction increments it by exactly one, neither terminal write
touches it, and along any chain of steps it is monotone. -/
theorem c3_attempts_monotonic :
    (∀ d now d2 att, claimTx (some d) now = some (d2, att) →
        d2.attempts = some (attemptsN d + 1)) ∧
      (∀ d e att now, (markAsFailed d e att now).attempts = d.attempts) ∧
      (∀ d now, (markAsSent d now).attempts = d.attempts) ∧
      (∀ d d2, Relation.ReflTransGen JobStep d d2 →
        attemptsN d ≤ attemptsN d2) := by
  refine ⟨?_, fun d e att now => rfl, fun d now => rfl, ?_⟩
  · intro d now d2 att hclaim
    obtain ⟨-, -, hd2, -⟩ := claimTx_some_elim hclaim
    subst hd2
    rfl
  · intro d d2 h
    induction h with
    | refl => exact Nat.le_refl _
    | tail hab hbc ih => exact Nat.le_trans ih (jobStep_attempts_le hbc)

theorem c3_witness :
    freshJob.attempts = some 0 ∧ attemptsN freshJob ≤ attemptsN freshJob :=
  ⟨rfl, (c3_attempts_monotonic).2.2.2 freshJob freshJob Relation.ReflTransGen.refl⟩

theorem jobStep_preserves_sentAt_iff {b c : EmailQueueDocument}
    (ih : b.sentAt.isSome = true ↔ b.status = some EmailStatus.sent)
    (h : JobStep b c) :
    c.sentAt.isSome = true ↔ c.status = some EmailStatus.sent := by
  cases h with
  | claim d2 now att hclaim =>
    obtain ⟨hs, -, hd2, -⟩ := claimTx_some_elim hclaim
    have hbs : b.status ≠ some EmailStatus.sent := by
      intro hcon
      exact hs (by simp [statusOf, hcon])
    have hbsent : b.sentAt.isSome = false := by
      cases hiso : b.sentAt.isSome with
      | false => rfl
      | true => exact absurd (ih.mp hiso) hbs
    subst hd2
    simp [claimUpdate, hbsent]
  | sendSuccess now hst => simp [markAsSent]
  | sendFailure e now hst =>
    have hbsent : b.sentAt.isSome = false := by
      cases hiso : b.sentAt.isSome with
      | false => rfl
      | true =>
        rw [ih.mp hiso] at hst
        cases hst
    constructor
    · intro hc
      exact absurd (show b.sentAt.isSome = true from hc) (by simp [hbsent])
    · intro hc
      have : (if MAX_ATTEMPTS ≤ attemptsN b then EmailStatus.failed
          else EmailStatus.error) = EmailStatus.sent := by
        have := (Option.some.injEq _ _).mp hc
        exact this
      split at this <;> cases this

/-- C4: for every job document reachable through the worker writes from
a freshly enqueued job, sentAt is set exactly when the status is sent:
it is stamped only together with the transition to sent and no
reachable sequence of claim, markAsFailed or sent writes produces a
document with sentAt set under any other status. -/
theorem c4_sentAt_iff_sent (d0 d : EmailQueueDocument) (h0 : FreshJob d0)
    (h : Relation.ReflTransGen JobStep d0 d) :
    d.sentAt.isSome = true ↔ d.status = some EmailStatus.sent := by
  induction h with
  | refl =>
    obtain ⟨hst, -, hsent, -, -⟩ := h0
    cases hst with
    | inl hn => simp [hsent, hn]
    | inr hp => simp [hsent, hp]
  | tail hab hbc ih => exact jobStep_preserves_sentAt_iff ih hbc

theorem c4_witness :
    freshJob.sentAt.isSome = true ↔ freshJob.status = some EmailStatus.sent :=
  c4_sentAt_iff_sent freshJob freshJob
    ⟨Or.inr rfl, Or.inr rfl, rfl, rfl, rfl⟩ Relation.ReflTransGen.refl

/-- C6: the direct (canonical) coordinate convention multiplies x and
width by the page width and y and height by the page height, y being
measured from the top; in particular the full normalized rectangle
maps onto the full page for every page size. -/
theorem c6_direct_convention_round_trip (r : QrArea) (tW tH W H : ℚ) :
    convertFrontendToPdfArea (some r) tW tH W H
        = some { x := r.x * W, y := r.y * H, width := r.width * W,
                 height := r.height * H, fontSize := r.fontSize,
                 lineSpacing := r.lineSpacing } ∧
      convertFrontendToPdfArea
          (some { x := 0, y := 0, width := 1, height := 1,
                  fontSize := none, lineSpacing := none }) tW tH W H
        = some { x := 0, y := 0, width := W, height := H,
                 fontSize := none, lineSpacing := none } := by
  constructor
  · rfl
  · simp [convertFrontendToPdfArea]

theorem clamp_mem (v lo hi : ℚ) (h : lo ≤ hi) :
    lo ≤ clamp v lo hi ∧ clamp v lo hi ≤ hi := by
  unfold clamp
  exact ⟨le_min (le_max_right v lo) h, min_le_right _ _⟩

/-- C7 counterexample: the canonical mapper performs no clamping: a
rectangle with x = 2 and width 0 is mapped to an x beyond the page
edge and a zero width, so the mapped output can be zero area and off
page. -/
theorem c7_counterexample :
    generateTicketPdfQrArea
        (some { x := 2, y := 0, width := 0, height := 0,
                fontSize := none, lineSpacing := none }) 720 720 100 50
      = some { x := 200, y := 0, width := 0, height := 0,
               fontSize := none, lineSpacing := none } ∧
      ¬ ((200 : ℚ) ≤ 100) := by
  constructor
  · simp [generateTicketPdfQrArea, convertFrontendToPdfArea]
    norm_num
  · norm_num

/-- C7 amended: when no QR rectangle is supplied, generateTicketPdf
falls back to the default rectangle x 0.65, y 0.1, width 0.25,
height 0.25 before mapping; the clamping of position into the unit
interval and of size into the band from 0.02 to 1 lives only in the
superseded normalizeTemplateArea helper of the earlier snapshot, whose
output origin is on the page and whose output size is positive and at
most the page; the canonical convertFrontendToPdfArea itself does not
clamp. -/
theorem c7_default_fallback_and_clamping (tW tH W H : ℚ)
    (hW : 0 < W) (hH : 0 < H) (a : QrArea) (fb : Option QrArea) :
    generateTicketPdfQrArea none tW tH W H
        = some { x := 65/100 * W, y := 1/10 * H, width := 1/4 * W,
                 height := 1/4 * H, fontSize := none, lineSpacing := none } ∧
      (∀ out, normalizeTemplateArea (some a) W H fb = some out →
        0 ≤ out.x ∧ out.x ≤ W ∧ 0 ≤ out.y ∧ out.y ≤ H ∧
          2/100 * W ≤ out.width ∧ out.width ≤ W ∧ 0 < out.width ∧
          2/100 * H ≤ out.height ∧ out.height ≤ H ∧ 0 < out.height) := by
  constructor
  · rfl
  · intro out hout
    have hW0 : (0 : ℚ) ≤ W := le_of_lt hW
    have hH0 : (0 : ℚ) ≤ H := le_of_lt hH
    have hx := clamp_mem a.x 0 1 (by norm_num)
    have hy := clamp_mem a.y 0 1 (by norm_num)
    have hw := clamp_mem a.width (2/100) 1 (by norm_num)
    have hh := clamp_mem a.height (2/100) 1 (by norm_num)
    have hnorm : normalizeTemplateArea (some a) W H fb
        = some
          { x := clamp a.x 0 1 * W
            y := clamp a.y 0 1 * H
            width := clamp a.width (2/100) 1 * W
            height := clamp a.height (2/100) 1 * H
            fontSize := none
            lineSpacing := none } := rfl
    rw [hnorm] at hout
    have hout2 := (Option.some.injEq _ _).mp hout
    subst hout2
    refine ⟨mul_nonneg hx.1 hW0, ?_, mul_nonneg hy.1 hH0, ?_, ?_, ?_, ?_, ?_, ?_, ?_⟩
    · calc clamp a.x 0 1 * W ≤ 1 * W := mul_le_mul_of_nonneg_right hx.2 hW0
        _ = W := one_mul W
    · calc clamp a.y 0 1 * H ≤ 1 * H := mul_le_mul_of_nonneg_right hy.2 hH0
        _ = H := one_mul H
    · exact mul_le_mul_of_nonneg_right hw.1 hW0
    · calc clamp a.width (2/100) 1 * W ≤ 1 * W :=
          mul_le_mul_of_nonneg_right hw.2 hW0
        _ = W := one_mul W
    · have : (0 : ℚ) < 2/100 * W := by positivity
      exact lt_of_lt_of_le this (mul_le_mul_of_nonneg_right hw.1 hW0)
    · exact mul_le_mul_of_nonneg_right hh.1 hH0
    · calc clamp a.height (2/100) 1 * H ≤ 1 * H :=
          mul_le_mul_of_nonneg_right hh.2 hH0
        _ = H := one_mul H
    · have : (0 : ℚ) < 2/100 * H := by positivity
      exact lt_of_lt_of_le this (mul_le_mul_of_nonneg_right hh.1 hH0)

theorem c7_witness :
    generateTicketPdfQrArea none 720 720 100 50
      = some { x := 65, y := 5, width := 25, height := 25/2,
               fontSize := none, lineSpacing := none } := by
  have h := (c7_default_fallback_and_clamping 720 720 100 50 (by norm_num)
      (by norm_num)
      { x := 3, y := -1, width := 0, height := 5,
        fontSize := none, lineSpacing := none } none).1
  rw [h]
  norm_num

theorem mem_insertByCreatedAt {x d : QueueDocSnapshot}
    {l : List QueueDocSnapshot} :
    x ∈ insertByCreatedAt d l ↔ x = d ∨ x ∈ l := by
  induction l with
  | nil => simp [insertByCreatedAt]
  | cons e rest ih =>
    by_cases hle : createdAtMillis d ≤ createdAtMillis e
    · simp [insertByCreatedAt, hle]
    · simp only [insertByCreatedAt, hle, if_false, List.mem_cons, ih]
      tauto

theorem mem_sortByCreatedAt {x : QueueDocSnapshot}
    {l : List QueueDocSnapshot} :
    x ∈ sortByCreatedAt l ↔ x ∈ l := by
  induction l with
  | nil => simp [sortByCreatedAt]
  | cons e rest ih =>
    show x ∈ insertByCreatedAt e (sortByCreatedAt rest) ↔ _
    rw [mem_insertByCreatedAt]
    simp [ih]

/-- C10: the claim guard rejects exactly the statuses sent and
processing (plus missing documents); a job whose status is failed, or
whose status field is absent and so defaults to pending, passes the
guard and is re claimed and re processed by handleEmailDocument; and
the scheduled sweep's queries select only documents whose status is
pending or error, so failed jobs are never re driven automatically. -/
theorem c10_failed_passes_guard_sweep_excludes (now : Nat) :
    (∀ d, claimTx (some d) now = none ↔
        statusOf d = EmailStatus.sent ∨ statusOf d = EmailStatus.processing) ∧
      (∀ d, d.status = some EmailStatus.failed ∨ d.status = none →
        claimTx (some d) now = some (claimUpdate d now, attemptsN d + 1) ∧
          (claimUpdate d now).status = some EmailStatus.processing ∧
          ∀ ok e, handleEmailDocumentModel (some d) now ok e
            = some (if ok then markAsSent (claimUpdate d now) now
                else markAsFailed (claimUpdate d now) e (attemptsN d + 1) now)) ∧
      (∀ db x, x ∈ processEmailQueueSelection db →
        x.status = some EmailStatus.pending ∨
          x.status = some EmailStatus.error) := by
  refine ⟨fun d => claimTx_none_iff d now, ?_, ?_⟩
  · intro d h
    have hst : statusOf d = EmailStatus.failed ∨ statusOf d = EmailStatus.pending := by
      cases h with
      | inl hf => exact Or.inl (by simp [statusOf, hf])
      | inr hn => exact Or.inr (by simp [statusOf, hn])
    have hs : statusOf d ≠ EmailStatus.sent := by
      cases hst with
      | inl hst => rw [hst]; intro hc; cases hc
      | inr hst => rw [hst]; intro hc; cases hc
    have hp : statusOf d ≠ EmailStatus.processing := by
      cases hst with
      | inl hst => rw [hst]; intro hc; cases hc
      | inr hst => rw [hst]; intro hc; cases hc
    refine ⟨claimTx_some_eq d now hs hp, rfl, ?_⟩
    intro ok e
    simp [handleEmailDocumentModel, claimTx_some_eq d now hs hp]
  · intro db x hx
    have hx2 : x ∈ sortByCreatedAt
        (queryByStatus db EmailStatus.pending ++ queryByStatus db EmailStatus.error) :=
      List.take_subset _ _ hx
    rw [mem_sortByCreatedAt] at hx2
    rcases List.mem_append.mp hx2 with hmem | hmem
    · left
      have := List.take_subset 10 _ hmem
      rw [mem_sortByCreatedAt] at this
      exact of_decide_eq_true (List.mem_filter.mp this).2
    · right
      have := List.take_subset 10 _ hmem
      rw [mem_sortByCreatedAt] at this
      exact of_decide_eq_true (List.mem_filter.mp this).2

theorem c10_witness :
    claimTx (some failedJob) 9
      = some (claimUpdate failedJob 9, attemptsN failedJob + 1) :=
  ((c10_failed_passes_guard_sweep_excludes 9).2.1 failedJob (Or.inl rfl)).1

theorem length_filterMap_range_some (g : Nat → TicketAttachment) (n : Nat) :
    ((List.range n).filterMap (fun i => some (g i))).length = n := by
  have h : (List.range n).filterMap (fun i => some (g i))
      = (List.range n).map g := by
    induction (List.range n) with
    | nil => rfl
    | cons a l ih => simp [List.filterMap_cons, ih]
  rw [h, List.length_map, List.length_range]

/-- C8 counterexample: a quantity field that is present with value 0 is
falsy in the source's truthy chain, so the builder produces one
attachment where the claim's reading (the quantity field whenever
present) dictates zero render units. -/
theorem c8_counterexample :
    exampleCtxQ0.quantity = some 0 ∧
      (buildTicketAttachments allOkRender exampleJobQ0).length = 1 := by
  exact ⟨rfl, by decide⟩

/-- C8 amended: for a ticket job accepted by the attachment builder,
the number of render units is the quantity field when it is present
and nonzero, else the seat list length when nonzero, else one; with no
per ticket render failure the builder returns exactly that many
attachments, and a job with quantity 3 and no seat list yields exactly
3 attachments whose seat labels are all null. -/
theorem c8_ticket_count (d : EmailQueueDocument) (ctx : TicketContext)
    (hT : d.type = some ("ticket")) (hC : d.context = some ctx)
    (hO : jsTruthyStr ctx.orderId = true)
    (hN : jsTruthyStr ctx.ticketName = true) :
    (buildTicketAttachments allOkRender d).length
        = jsTicketCount ctx.quantity (seatArrayOf ctx).length ∧
      (ctx.quantity = some 3 → ctx.seatList = SeatListField.missing →
        (buildTicketAttachments allOkRender d).length = 3 ∧
          ∀ a ∈ buildTicketAttachments allOkRender d, a.seatLabel = none) := by
  have hbuild : buildTicketAttachments allOkRender d
      = (List.range (jsTicketCount ctx.quantity (seatArrayOf ctx).length)).filterMap
          (fun i =>
            let seatLabel := seatLabelOf (seatArrayOf ctx)[i]?
            if allOkRender i then
              some { filename := ticketFileName ctx.ticketName seatLabel
                     seatLabel := seatLabel }
            else none) := by
    simp [buildTicketAttachments, hT, hC, hO, hN]
  constructor
  · rw [hbuild]
    simp only [allOkRender, if_true]
    exact length_filterMap_range_some _ _
  · intro hq hs
    have hlen : (buildTicketAttachments allOkRender d).length = 3 := by
      rw [hbuild]
      simp only [allOkRender, if_true]
      rw [length_filterMap_range_some]
      simp [jsTicketCount, hq]
    refine ⟨hlen, ?_⟩
    intro a ha
    rw [hbuild] at ha
    obtain ⟨i, hi, hsome⟩ := List.mem_filterMap.mp ha
    simp only [allOkRender, if_true] at hsome
    have hlabel : seatLabelOf (seatArrayOf ctx)[i]? = none := by
      simp [seatArrayOf, hs, seatLabelOf]
    rw [hlabel] at hsome
    have := (Option.some.injEq _ _).mp hsome
    rw [← this]

theorem c8_witness :
    (buildTicketAttachments allOkRender exampleJobQ3).length = 3 := by
  have h := c8_ticket_count exampleJobQ3 exampleCtxQ3 rfl rfl (by decide) (by decide)
  exact (h.2 rfl rfl).1

/-- C9 counterexample: the sanitizer replaces characters outside the
allowed class by underscores instead of stripping them: the filename
the builder produces for the ticket name Give Away 10 percent differs
from the filename predicted by the claim's stripping sanitizer. -/
theorem c9_counterexample :
    (buildTicketAttachments allOkRender exampleJobName).map
        (fun a => a.filename) = [("Ticket_Give_Away_10__.pdf")] ∧
      ("Ticket_") ++ sanitizeFileSegmentSpec (some ("Give Away 10%")) ++ ("_")
          ++ sanitizeFileSegmentSpec none ++ (".pdf")
        = ("Ticket_GiveAway10_.pdf") ∧
      ("Ticket_Give_Away_10__.pdf") ≠ ("Ticket_GiveAway10_.pdf") := by
  refine ⟨by decide, by decide, by decide⟩

/-- C9 amended: every produced attachment filename equals Ticket plus
underscore plus the sanitized ticket name plus underscore plus the
sanitized seat label plus the pdf suffix, where the sanitizer replaces
(not strips) every character outside letters, digits, underscore and
hyphen by an underscore and truncates to 50 characters: the sanitized
text has min(50, input length) characters, all from the allowed
class. -/
theorem c9_filenames (d : EmailQueueDocument) (ctx : TicketContext)
    (hC : d.context = some ctx) (renderOk : Nat → Bool) :
    (∀ a ∈ buildTicketAttachments renderOk d,
        a.filename = ticketFileName ctx.ticketName a.seatLabel) ∧
      (∀ s : String,
        (sanitizeFileSegment (some s)).length = min 50 s.length ∧
          ∀ c ∈ (sanitizeFileSegment (some s)).toList,
            allowedFileChar c = true) := by
  constructor
  · intro a ha
    by_cases hT : d.type = some ("ticket")
    · rw [buildTicketAttachments] at ha
      simp only [hT, hC, ne_eq, not_true_eq_false, if_false] at ha
      by_cases hG : jsTruthyStr ctx.orderId ∧ jsTruthyStr ctx.ticketName
      · simp only [hG, not_true_eq_false, if_false] at ha
        obtain ⟨i, hi, hsome⟩ := List.mem_filterMap.mp ha
        by_cases hr : renderOk i
        · simp only [hr, if_true] at hsome
          have := (Option.some.injEq _ _).mp hsome
          rw [← this]
        · simp [hr] at hsome
      · simp [hG] at ha
    · simp [buildTicketAttachments, hT] at ha
  · intro s
    constructor
    · show (((s.toList.map
          (fun c => if allowedFileChar c then c else ('_'))).take 50)).length
        = min 50 s.length
      rw [List.length_take, List.length_map]
      rfl
    · intro c hc
      have hc2 : c ∈ s.toList.map (fun c => if allowedFileChar c then c else ('_')) :=
        List.take_subset 50 _ hc
      obtain ⟨c0, hc0, hceq⟩ := List.mem_map.mp hc2
      by_cases hal : allowedFileChar c0 = true
      · rw [← hceq, if_pos hal]; exact hal
      · rw [← hceq, if_neg hal]; decide

theorem c9_witness :
    (sanitizeFileSegment (some ("Give Away 10%"))).length
      = min 50 ("Give Away 10%").length := by
  have h := (c9_filenames exampleJobName exampleCtxName rfl allOkRender).2
      ("Give Away 10%")
  exact h.1

theorem shrinkLoop_count_le (seg : ℚ → ℤ) (avail : ℚ) (n : Nat) :
    ∀ fs ls : ℚ, (shrinkLoop seg avail n fs ls).2.2 ≤ n := by
  induction n with
  | zero => intro fs ls; simp [shrinkLoop]
  | succ n ih =>
    intro fs ls
    simp only [shrinkLoop]
    split
    · simp
    · split
      · simp
      · have h := ih (nextFont seg avail fs ls) (nextSpacing seg avail fs ls)
        simpa using Nat.succ_le_succ h

theorem shrinkLoop_exit (seg : ℚ → ℤ) (avail : ℚ) (n : Nat) :
    ∀ fs ls : ℚ,
      neededHeight seg (shrinkLoop seg avail n fs ls).1
          (shrinkLoop seg avail n fs ls).2.1 ≤ avail * (95/100) ∨
        (nextFont seg avail (shrinkLoop seg avail n fs ls).1
              (shrinkLoop seg avail n fs ls).2.1
            = (shrinkLoop seg avail n fs ls).1 ∧
          nextSpacing seg avail (shrinkLoop seg avail n fs ls).1
              (shrinkLoop seg avail n fs ls).2.1
            = (shrinkLoop seg avail n fs ls).2.1) ∨
        (shrinkLoop seg avail n fs ls).2.2 = n := by
  induction n with
  | zero => intro fs ls; right; right; simp [shrinkLoop]
  | succ n ih =>
    intro fs ls
    simp only [shrinkLoop]
    split
    · next hunch =>
      right; left
      exact ⟨hunch.1, hunch.2⟩
    · split
      · next hfit =>
        left
        exact hfit
      · next hfit =>
        rcases ih (nextFont seg avail fs ls) (nextSpacing seg avail fs ls) with
          h | h | h
        · left; exact h
        · right; left; exact h
        · right; right; simpa using congrArg Nat.succ h

/-- C5 corrected counterexample: with one text segment, font size 100,
line spacing 10 and available height 101, the needed height 100
exceeds 95 percent of the available height and a rescale would lower
the font size to 95, yet the source enters the shrink loop only when
the needed height exceeds the full available height, so it runs zero
iterations and leaves both values untouched. -/
theorem c5_counterexample :
    (101 : ℚ) * (95/100) < neededHeight constOneSeg 100 10 ∧
      adjustTicketText constOneSeg 101 100 10 = (100, 10, 0) ∧
      nextFont constOneSeg 101 100 10 = 95 := by
  refine ⟨by norm_num [neededHeight, constOneSeg], ?_, ?_⟩
  · rw [adjustTicketText, if_neg (by norm_num [neededHeight, constOneSeg])]
  · have h1 : neededHeight constOneSeg 100 10 = 100 := by
      norm_num [neededHeight, constOneSeg]
    have h2 : scaleFactor 101 100 = 1919/2000 := by
      rw [scaleFactor, max_eq_right (by norm_num)]
      norm_num
    rw [nextFont, h1, h2]
    have h3 : ((100 : ℚ) * (1919/2000)) = 1919/20 := by norm_num
    rw [h3]
    have h4 : Int.floor ((1919 : ℚ)/20) = 95 := by
      rw [Int.floor_eq_iff]
      norm_num
    rw [h4]
    rw [max_eq_right (by norm_num)]
    norm_num

/-- C5 amended: the shrink loop of drawTicketInfoText is entered only
when the needed height exceeds the full available height (not merely
its 95 percent); each iteration rescales font size and line spacing by
max(0.75, available times 0.95 over needed) with floors of 8 and 2,
stopping early when a rescale changes neither value or when the
recomputed needed height fits into 95 percent of the available height;
it always terminates after at most 10 iterations, and at exit either
the text fits 95 percent of the available height, or a further rescale
would change nothing, or all 10 iterations ran (any remaining overflow
is only reported diagnostically). -/
theorem c5_shrink_loop_terminates (seg : ℚ → ℤ) (avail fs ls : ℚ) :
    (adjustTicketText seg avail fs ls).2.2 ≤ 10 ∧
      (¬ avail < neededHeight seg fs ls →
        adjustTicketText seg avail fs ls = (fs, ls, 0)) ∧
      (avail < neededHeight seg fs ls →
        neededHeight seg (adjustTicketText seg avail fs ls).1
            (adjustTicketText seg avail fs ls).2.1 ≤ avail * (95/100) ∨
          (nextFont seg avail (adjustTicketText seg avail fs ls).1
                (adjustTicketText seg avail fs ls).2.1
              = (adjustTicketText seg avail fs ls).1 ∧
            nextSpacing seg avail (adjustTicketText seg avail fs ls).1
                (adjustTicketText seg avail fs ls).2.1
              = (adjustTicketText seg avail fs ls).2.1) ∨
          (adjustTicketText seg avail fs ls).2.2 = 10) := by
  by_cases h : avail < neededHeight seg fs ls
  · rw [adjustTicketText, if_pos h]
    exact ⟨shrinkLoop_count_le seg avail 10 fs ls,
      fun hc => absurd h hc,
      fun _ => shrinkLoop_exit seg avail 10 fs ls⟩
  · rw [adjustTicketText, if_neg h]
    exact ⟨by norm_num, fun _ => rfl, fun hc => absurd hc h⟩

theorem c5_witness :
    adjustTicketText constOneSeg 101 100 10 = (100, 10, 0) ∧
      (adjustTicketText constOneSeg 101 100 10).2.2 ≤ 10 := by
  have h := c5_shrink_loop_terminates constOneSeg 101 100 10
  exact ⟨h.2.1 (by norm_num [neededHeight, constOneSeg]), h.1⟩
